import Mathlib

/-!
Shallow embedding of the `balancer` package of the RTP repository
(session-aware load balancer: backend pool, admission, failover).

The repository contains two revisions of `balancing-plugin.go`
(a `FaultDetectorFactory`-based one, called `V0` below, and a
UDP-dial-based one, called `V1` below).  The companion file defining
`BackendServer`, `BackendServerSlice` (with its sort comparator
`Less`), `pickServer`, `registerSession`, `unregisterSession` and
`handleStateChanged` is not part of the available sources; those
operations are modelled from the specification and marked as such in
their doc comments.

External collaborators (transport resolution, detector factory,
protocol handler, circuit-breaker clients) are modelled as oracles:
their results are inputs of the embedded functions.
-/

namespace Balancer

/-- Go `error` values, modelled as their message strings. -/
abbrev Err := String

deriving instance DecidableEq for Except

/-- Constant `num_backup_servers = 1` from the source. -/
def num_backup_servers : Nat := 1

/-- Constant `backup_session_weight = 0.1` from the source, represented in
tenths of a unit (so that load scores stay in `Nat`). -/
def backup_session_weight_tenths : Nat := 1

/-- A `BackendServer`: resolved address, circuit-breaker state (`up`),
the client id owned by this server, the set of sessions registered on it
(sessions whose primary this server is, kept as a list of session ids),
and the number of sessions holding this server as a backup. -/
structure BackendServer where
  id : Nat
  host : String
  port : Nat
  client : Nat
  up : Bool
  sessions : List Nat
  backupCount : Nat
deriving Repr, DecidableEq

/-- Modelled from the spec: the load score of a backend is
activeSessionCount + backupSessionCount * backup_session_weight
(the comparator of `BackendServerSlice` is in the missing companion
file).  Scores are scaled by 10 so that they live in `Nat`; the scaling
preserves the ordering exactly. -/
def loadScore10 (s : BackendServer) : Nat :=
  10 * s.sessions.length + s.backupCount * backup_session_weight_tenths

/-- The sort relation on backends: ascending load score. -/
def scoreLe (a b : BackendServer) : Prop := loadScore10 a ≤ loadScore10 b

instance : DecidableRel scoreLe := fun a b =>
  inferInstanceAs (Decidable (loadScore10 a ≤ loadScore10 b))

instance : IsTotal BackendServer scoreLe :=
  ⟨fun a b => Nat.le_total (loadScore10 a) (loadScore10 b)⟩

instance : IsTrans BackendServer scoreLe :=
  ⟨fun _ _ _ h h2 => Nat.le_trans h h2⟩

instance : IsRefl BackendServer scoreLe := ⟨fun a => Nat.le_refl (loadScore10 a)⟩

/-- The sort applied after each `append` in `AddBackendServer`
(`sort.Sort(plugin.BackendServers)`).  Modelled from the spec: ascending
load score, stable (ties keep their relative order); `List.insertionSort`
with a non-strict relation is stable. -/
def sortPool (pool : List BackendServer) : List BackendServer :=
  List.insertionSort scoreLe pool

/-- Modelled from the spec: `BackendServer.registerSession` adds the session
to the backend's session set (a Go `map[*BalancingSession]bool`). -/
def registerSession (srv : BackendServer) (sid : Nat) : BackendServer :=
  if sid ∈ srv.sessions then srv else { srv with sessions := srv.sessions ++ [sid] }

/-- Modelled from the spec: `BackendServer.unregisterSession` removes the
session from the backend's session set. -/
def unregisterSession (srv : BackendServer) (sid : Nat) : BackendServer :=
  { srv with sessions := srv.sessions.filter (fun x => x ≠ sid) }

/-- A `BalancingSession`: client identity, current primary (backend id),
ordered backups (backend ids), and the sticky failover error. -/
structure Session where
  id : Nat
  client : String
  primary : Nat
  backups : List Nat
  failoverError : Option Err
deriving Repr, DecidableEq

/-- The plugin's mutable pool state: the backend pool plus all live
sessions. -/
structure PoolState where
  servers : List BackendServer
  sessions : List Session
deriving Repr, DecidableEq

/-- Apply `f` to the pool entry (entries) with backend id `i`. -/
def updateServer (servers : List BackendServer) (i : Nat)
    (f : BackendServer → BackendServer) : List BackendServer :=
  servers.map (fun s => if s.id = i then f s else s)

/-- The UP backends of a pool, in pool order. -/
def upServers (pool : List BackendServer) : List BackendServer :=
  pool.filter (fun s => s.up)

/-- Modelled from the spec: `BackendServerSlice.pickServer` (missing
companion file).  Selection: filter the pool to UP servers, sort
ascending by load score (stable), take the first server as primary and
the next `num_backup_servers` as ordered backups; no UP server means no
pick. -/
def pickServer (pool : List BackendServer) :
    Option BackendServer × List BackendServer :=
  match List.insertionSort scoreLe (upServers pool) with
  | [] => (none, [])
  | s :: rest => (some s, rest.take num_backup_servers)

/-- Outcome of `BalancingPlugin.NewSession`: the new pool state and the Go
return pair, `.ok sid` standing for the returned session. -/
structure NewSessionOutcome where
  state : PoolState
  result : Except Err Nat
deriving Repr, DecidableEq

/-- `BalancingPlugin.NewSession` (balancing-plugin, lines 101-120 in both
revisions).  `handlerResult` is the oracle for
`plugin.handler.NewSession(session, param)`; `protocolName` is
`plugin.handler.Protocol().Name()`; `sid` is the identity of the freshly
allocated `BalancingSession`.  Selection is delegated to the
spec-modelled `pickServer`. -/
def NewSession (handlerResult : Except Err Unit) (protocolName : String)
    (st : PoolState) (clientAddr : String) (sid : Nat) : NewSessionOutcome :=
  match pickServer st.servers with
  | (none, _) =>
      ⟨st, .error ("No " ++ protocolName ++ " server available to handle your request")⟩
  | (some server, backups) =>
      let session : Session :=
        { id := sid, client := clientAddr, primary := server.id,
          backups := backups.map (fun b => b.id), failoverError := none }
      match handlerResult with
      | .error e =>
          ⟨st, .error ("Failed to create " ++ protocolName ++ " session: " ++ e)⟩
      | .ok _ =>
          ⟨{ servers := updateServer st.servers server.id (fun s => registerSession s sid),
             sessions := st.sessions ++ [session] }, .ok sid⟩

/-- Oracle results for one `AddBackendServer` call in the
detector-factory revision (V0): the outcomes of
`Transport().Resolve(addr)` (host and port), `plugin.make_detector(addr)`
(detector id), `plugin.handler.NewClient(detector)` (client id) and
`client.SetServer(...)`. -/
structure AddSpec where
  addr : String
  resolve : Except Err (String × Nat)
  makeDetector : Except Err Nat
  newClient : Except Err Nat
  setServer : Option Err
deriving Repr, DecidableEq

/-- The `BackendServer` literal built by a successful `AddBackendServer`
call: resolved address, fresh client, empty session set. -/
def mkServer (sa : String × Nat) (cl : Nat) (n : Nat) : BackendServer :=
  { id := n, host := sa.1, port := sa.2, client := cl, up := true,
    sessions := [], backupCount := 0 }

/-- Outcome of one `AddBackendServer` call: the pool afterwards, the next
fresh backend identity, the returned error (`none` = success), which
detectors and clients had `Close()` called on them during the call, and
whether the call panicked in `assertStarted`. -/
structure AddOutcome where
  pool : List BackendServer
  nextId : Nat
  result : Option Err
  closedDetectors : List Nat
  closedClients : List Nat
  panicked : Bool
deriving Repr, DecidableEq

/-- `BalancingPlugin.AddBackendServer` of the detector-factory revision
(part_000, lines 61-95): assertStarted, resolve, make detector (closing
nothing on failure since nothing was created), create client (closing
the detector on failure), configure client (closing detector and client
on failure), then append the new server and re-sort the pool.
`server?` is `plugin.Server` (`none` = not yet started). -/
def AddBackendServerV0 (server? : Option Nat) (pool : List BackendServer)
    (nextId : Nat) (a : AddSpec) : AddOutcome :=
  match server? with
  | none => ⟨pool, nextId, none, [], [], true⟩
  | some _ =>
    match a.resolve with
    | .error e => ⟨pool, nextId, some ("Error resolving backend server: " ++ e), [], [], false⟩
    | .ok serverAddr =>
      match a.makeDetector with
      | .error e => ⟨pool, nextId, some ("Error making detector: " ++ e), [], [], false⟩
      | .ok detector =>
        match a.newClient with
        | .error e => ⟨pool, nextId, some ("Error creating client: " ++ e), [detector], [], false⟩
        | .ok client =>
          match a.setServer with
          | some e =>
              ⟨pool, nextId, some ("Error configuring client: " ++ e), [detector], [client], false⟩
          | none =>
              ⟨sortPool (pool ++ [mkServer serverAddr client nextId]),
               nextId + 1, none, [], [], false⟩

/-- Oracle results for one `AddBackendServer` call in the UDP-dial
revision (V1): `net.ResolveUDPAddr`, `net.DialUDP` (connection id), the
`*net.UDPAddr` type assertion on the local address,
`handler.NewClient(localAddr)` and `client.SetServer(...)`. -/
structure AddSpecV1 where
  addr : String
  resolveUDP : Except Err (String × Nat)
  dialUDP : Except Err Nat
  localAddrOk : Bool
  newClient : Except Err Nat
  setServer : Option Err
deriving Repr, DecidableEq

/-- `BalancingPlugin.AddBackendServer` of the UDP-dial revision (part_001,
lines 59-95): resolve, dial, convert the local address, create and
configure the client, then append and re-sort.  Every failure path
returns the error directly and closes nothing. -/
def AddBackendServerV1 (pool : List BackendServer) (nextId : Nat)
    (a : AddSpecV1) : AddOutcome :=
  match a.resolveUDP with
  | .error e => ⟨pool, nextId, some e, [], [], false⟩
  | .ok serverAddr =>
    match a.dialUDP with
    | .error e => ⟨pool, nextId, some e, [], [], false⟩
    | .ok conn =>
      if !a.localAddrOk then
        ⟨pool, nextId, some ("Failed to convert to net.UDPAddr: " ++ toString conn), [], [], false⟩
      else
        match a.newClient with
        | .error e => ⟨pool, nextId, some e, [], [], false⟩
        | .ok client =>
          match a.setServer with
          | some e => ⟨pool, nextId, some e, [], [], false⟩
          | none =>
              ⟨sortPool (pool ++ [mkServer serverAddr client nextId]),
               nextId + 1, none, [], [], false⟩

/-- Whether a V0 `AddBackendServer` call with these oracle results
succeeds. -/
def addSucceeds (a : AddSpec) : Bool :=
  a.resolve.isOk && a.makeDetector.isOk && a.newClient.isOk && a.setServer.isNone

/-- Whether a V1 `AddBackendServer` call with these oracle results
succeeds. -/
def addSucceedsV1 (a : AddSpecV1) : Bool :=
  a.resolveUDP.isOk && a.dialUDP.isOk && a.localAddrOk && a.newClient.isOk &&
    a.setServer.isNone

/-- The detector created during a V0 `AddBackendServer` call, if the call
got as far as creating one. -/
def createdDetector (a : AddSpec) : Option Nat :=
  match a.resolve, a.makeDetector with
  | .ok _, .ok d => some d
  | _, _ => none

/-- The client created during a V0 `AddBackendServer` call, if the call
got as far as creating one. -/
def createdClient (a : AddSpec) : Option Nat :=
  match a.resolve, a.makeDetector, a.newClient with
  | .ok _, .ok _, .ok c => some c
  | _, _, _ => none

/-- The client created during a V1 `AddBackendServer` call, if the call
got as far as creating one. -/
def createdClientV1 (a : AddSpecV1) : Option Nat :=
  match a.resolveUDP, a.dialUDP, a.localAddrOk, a.newClient with
  | .ok _, .ok _, true, .ok c => some c
  | _, _, _, _ => none

/-- One `AddBackendServer` call of a sequence on a started plugin,
threading the pool and the fresh-identity counter. -/
def addStep (acc : List BackendServer × Nat) (a : AddSpec) :
    List BackendServer × Nat :=
  let out := AddBackendServerV0 (some 0) acc.1 acc.2 a
  (out.pool, out.nextId)

/-- Run a sequence of V0 `AddBackendServer` calls on a started plugin,
beginning from an empty pool. -/
def runAdds (specs : List AddSpec) : List BackendServer × Nat :=
  specs.foldl addStep ([], 0)

/-- The servers the successful calls of a V0 add sequence introduce, in
call order, with the identities `runAdds` assigns. -/
def expectedServers (specs : List AddSpec) (nextId : Nat) : List BackendServer :=
  match specs with
  | [] => []
  | a :: rest =>
    match a.resolve, a.makeDetector, a.newClient, a.setServer with
    | .ok serverAddr, .ok _, .ok client, none =>
        mkServer serverAddr client nextId :: expectedServers rest (nextId + 1)
    | _, _, _, _ => expectedServers rest nextId

/-- Outcome of `BalancingPlugin.Stop`: the client ids `Close()` was called
on, in pool order, and the accumulated `golib.MultiError`. -/
structure StopOutcome where
  attempted : List Nat
  errors : List Err
deriving Repr, DecidableEq

/-- The error message `Stop` appends when closing one backend's client
fails. -/
def stopError (srv : BackendServer) (e : Err) : Err :=
  "Error closing connection to " ++ srv.host ++ ": " ++ e

/-- One iteration of the loop in `BalancingPlugin.Stop`: call
`server.Client.Close()` and append its error, if any. -/
def stopStep (closeResult : Nat → Option Err) (acc : StopOutcome)
    (srv : BackendServer) : StopOutcome :=
  match closeResult srv.client with
  | some e => ⟨acc.attempted ++ [srv.client], acc.errors ++ [stopError srv e]⟩
  | none => ⟨acc.attempted ++ [srv.client], acc.errors⟩

/-- `BalancingPlugin.Stop` (lines 122-130): close every backend's client,
collecting a formatted error for each failing close; `closeResult` is the
oracle for `server.Client.Close()`. -/
def Stop (closeResult : Nat → Option Err) (pool : List BackendServer) : StopOutcome :=
  pool.foldl (stopStep closeResult) ⟨[], []⟩

/-- The errors of the failing closes of a pool, one per failure, in pool
order. -/
def failedCloses (closeResult : Nat → Option Err) (pool : List BackendServer) : List Err :=
  pool.filterMap (fun srv => (closeResult srv.client).map (stopError srv))

/-- `golib.MultiError.NilOrError`: a nil error when no error was
collected, otherwise the collected multi-error. -/
def NilOrError (errs : List Err) : Option (List Err) :=
  if errs = [] then none else some errs

/-- Outcome of `BalancingSession.Cleanup`: the backend pool afterwards,
the returned error, and how often `StopRemote` and
`BackgroundStopRemote` were invoked. -/
structure CleanupOutcome where
  servers : List BackendServer
  result : Option Err
  stopRemoteCalls : Nat
  backgroundStopRemoteCalls : Nat
deriving Repr, DecidableEq

/-- `BalancingSession.Cleanup` (part_000 lines 168-176, part_001 lines
158-166, identical): unregister from the primary's session set; if no
failover error was recorded, call `Handler.StopRemote()` and return its
result (`stopRemoteResult` is the oracle), otherwise return the stored
failover error without any remote call. -/
def Cleanup (stopRemoteResult : Option Err) (servers : List BackendServer)
    (sess : Session) : CleanupOutcome :=
  let servers1 := updateServer servers sess.primary (fun s => unregisterSession s sess.id)
  match sess.failoverError with
  | none => ⟨servers1, stopRemoteResult, 1, 0⟩
  | some e => ⟨servers1, some e, 0, 0⟩

/-- The opaque callback key of `serverStateChanged`: either the
`*BackendServer` tag registered in `AddBackendServer`, or any other
value (described by a string). -/
inductive CallbackKey
  | backend (id : Nat)
  | other (desc : String)
deriving Repr, DecidableEq

/-- The whole plugin: `plugin.Server` (`none` until `Start` is called)
and the pool state. -/
structure Plugin where
  server : Option Nat
  pool : PoolState
deriving Repr, DecidableEq

/-- `BalancingPlugin.Start` (lines 97-99): store the server reference. -/
def StartPlugin (p : Plugin) (srv : Nat) : Plugin :=
  { p with server := some srv }

/-- Modelled from the spec: `BackendServer.handleStateChanged` (missing
companion file).  When a backend's breaker reports a state change and
the backend is now DOWN, every session in its session set (the sessions
whose primary it is) initiates one failover attempt; the result lists
the session ids that do. -/
def handleStateChanged (st : PoolState) (serverId : Nat) : List Nat :=
  match st.servers.find? (fun s => s.id == serverId) with
  | none => []
  | some srv => if srv.up then [] else srv.sessions

/-- Outcome of `BalancingPlugin.serverStateChanged`: the pool state
afterwards, the errors logged via `plugin.Server.LogError`, the session
ids that initiated a failover attempt, and whether the call panicked in
`assertStarted`. -/
structure StateChangedOutcome where
  state : PoolState
  logged : List Err
  failovers : List Nat
  panicked : Bool
deriving Repr, DecidableEq

/-- `BalancingPlugin.serverStateChanged` (part_000 lines 132-140): when
the opaque key is not a `*BackendServer`, assert the plugin is started
(panicking otherwise), log a conversion error and return; otherwise
hand over to the backend's `handleStateChanged`. -/
def serverStateChanged (p : Plugin) (key : CallbackKey) : StateChangedOutcome :=
  match key with
  | .other d =>
      match p.server with
      | none => ⟨p.pool, [], [], true⟩
      | some _ =>
          ⟨p.pool,
           ["Could not handle server fault: Failed to convert " ++ d ++ " to *BackendServer"],
           [], false⟩
  | .backend i => ⟨p.pool, [], handleStateChanged p.pool i, false⟩

/-- Outcome of a session's failover attempt: the pool state afterwards,
the `(host, port)` arguments of each `RedirectStream` call made, and the
error when the attempt failed. -/
structure FailoverOutcome where
  state : PoolState
  redirects : List (String × Nat)
  result : Option Err
deriving Repr, DecidableEq

/-- Modelled from the spec: the session failover routine (missing
companion file).  `hsf` is the oracle for the handler's
`HandleServerFault()`.  On success the session unregisters from the old
primary's session set, updates its primary, registers on the new server
and calls `RedirectStream(newHost, newPort)` once; on failure it records
the sticky `failoverError`. -/
def failoverSession (hsf : Except Err BackendServer) (st : PoolState)
    (sid : Nat) : FailoverOutcome :=
  match hsf with
  | .error e =>
      let sessions1 := st.sessions.map
        (fun s => if s.id = sid then { s with failoverError := some e } else s)
      ⟨{ st with sessions := sessions1 }, [], some e⟩
  | .ok newSrv =>
      match st.sessions.find? (fun s => s.id == sid) with
      | none => ⟨st, [], none⟩
      | some sess =>
          let servers1 := updateServer st.servers sess.primary
            (fun s => unregisterSession s sid)
          let servers2 := updateServer servers1 newSrv.id
            (fun s => registerSession s sid)
          let sessions2 := st.sessions.map
            (fun s => if s.id = sid then { s with primary := newSrv.id } else s)
          ⟨⟨servers2, sessions2⟩, [(newSrv.host, newSrv.port)], none⟩

/-- `BalancingPlugin.assertStarted` (lines 142-147): panic iff
`plugin.Server` is nil. -/
def assertStartedPanics (p : Plugin) : Bool := p.server.isNone

/-- `BalancingSession.StopContainingSession` (part_000 lines 149-152):
assert started, then `Server.StopSession(session.Client)`.  `none`
means the call panicked; otherwise the pair records which server was
asked to stop which client's session. -/
def StopContainingSession (p : Plugin) (client : String) : Option (Nat × String) :=
  match p.server with
  | none => none
  | some srv => some (srv, client)

/-- `BalancingSession.LogServerError` (part_000 lines 154-157): assert
started, then `Server.LogError(err)`.  `none` means the call
panicked. -/
def LogServerError (p : Plugin) (err : Err) : Option (Nat × Err) :=
  match p.server with
  | none => none
  | some srv => some (srv, err)

/-- The primary backend id of the session with id `sid`, when such a
session exists. -/
def sessionPrimary (st : PoolState) (sid : Nat) : Option Nat :=
  (st.sessions.find? (fun s => s.id == sid)).map (fun s => s.primary)

section ConcreteInputs

/-- A concrete UP backend used to exercise the theorems. -/
def srvA : BackendServer :=
  { id := 0, host := "10.0.0.1", port := 7777, client := 40, up := true,
    sessions := [], backupCount := 0 }

/-- A second concrete UP backend, more loaded than `srvA`. -/
def srvB : BackendServer :=
  { id := 1, host := "10.0.0.2", port := 7778, client := 41, up := true,
    sessions := [5], backupCount := 0 }

/-- A concrete DOWN backend holding one registered (primary) session. -/
def srvDown : BackendServer :=
  { id := 2, host := "10.0.0.3", port := 7779, client := 42, up := false,
    sessions := [5], backupCount := 1 }

/-- A session whose primary is `srvDown` (session id 5). -/
def sessPrimary5 : Session :=
  { id := 5, client := "c5", primary := 2, backups := [0], failoverError := none }

/-- A session for which `srvDown` is only a backup (session id 9). -/
def sessBackup9 : Session :=
  { id := 9, client := "c9", primary := 0, backups := [2], failoverError := none }

/-- Concrete pool state for the state-change and failover theorems. -/
def stDown : PoolState :=
  { servers := [srvA, srvDown], sessions := [sessPrimary5, sessBackup9] }

/-- Concrete started plugin over `stDown`. -/
def pluginDown : Plugin := { server := some 0, pool := stDown }

/-- Concrete pool state with two UP servers and no sessions. -/
def stTwoUp : PoolState := { servers := [srvB, srvA], sessions := [] }

/-- A concrete pool whose only backend is DOWN. -/
def stNoUp : PoolState :=
  { servers := [{ srvA with up := false }], sessions := [] }

/-- Oracle results of a V1 `AddBackendServer` call whose
`client.SetServer` fails after the client was created. -/
def cexAddSpecV1 : AddSpecV1 :=
  { addr := "10.0.0.1:7777", resolveUDP := .ok ("10.0.0.1", 7777),
    dialUDP := .ok 3, localAddrOk := true, newClient := .ok 7,
    setServer := some "configure failed" }

/-- Oracle results of a V0 `AddBackendServer` call whose
`client.SetServer` fails after detector and client were created. -/
def wAddSpecV0 : AddSpec :=
  { addr := "10.0.0.1:7777", resolve := .ok ("10.0.0.1", 7777),
    makeDetector := .ok 3, newClient := .ok 7,
    setServer := some "configure failed" }

end ConcreteInputs

/-! Helper lemmas shared by the claim theorems. -/

/-- A pool whose members all have load score zero is already sorted, so the
stable sort leaves it unchanged. -/
theorem sortPool_eq_of_all_zero (pool : List BackendServer)
    (h : ∀ s ∈ pool, loadScore10 s = 0) : sortPool pool = pool := by
  apply List.Sorted.insertionSort_eq
  apply List.pairwise_of_forall_mem_list
  intro a ha b hb
  show loadScore10 a ≤ loadScore10 b
  rw [h a ha, h b hb]

/-- Finding by a key that occurs exactly once, through a key-preserving
update `g` mapped over the list, returns the updated occurrence. -/
theorem find_map_by_key {α : Type} (f : α → Nat) (g : α → α)
    (hg : ∀ x, f (g x) = f x) :
    ∀ (l : List α) (a : α), a ∈ l → (l.map f).Nodup →
      (l.map g).find? (fun x => f x == f a) = some (g a) := by
  intro l
  induction l with
  | nil => intro a ha _; exact absurd ha (List.not_mem_nil a)
  | cons hd t ih =>
      intro a ha hn
      rw [List.map_cons] at hn
      rcases List.nodup_cons.mp hn with ⟨hnotin, hnt⟩
      rw [List.map_cons]
      by_cases hfa : f hd = f a
      · have hah : a = hd := by
          rcases List.mem_cons.mp ha with h1 | h1
          · exact h1
          · exact absurd (hfa ▸ List.mem_map_of_mem f h1) hnotin
        subst hah
        apply List.find?_cons_of_pos
        simp [hg]
      · have hat : a ∈ t := by
          rcases List.mem_cons.mp ha with h1 | h1
          · exact absurd (h1 ▸ rfl) hfa
          · exact h1
        rw [List.find?_cons_of_neg]
        · exact ih a hat hnt
        · simp [hg, hfa]

/-- Finding by a key that occurs exactly once returns the element carrying
it. -/
theorem find_by_key {α : Type} (f : α → Nat) (l : List α) (a : α)
    (ha : a ∈ l) (hn : (l.map f).Nodup) :
    l.find? (fun x => f x == f a) = some a := by
  have h := find_map_by_key f id (fun _ => rfl) l a ha hn
  rwa [List.map_id] at h

/-- `unregisterSession` removes the session from the backend's set. -/
theorem not_mem_unregister (srv : BackendServer) (sid : Nat) :
    sid ∉ (unregisterSession srv sid).sessions := by
  simp [unregisterSession]

/-- `registerSession` puts the session into the backend's set. -/
theorem mem_register (srv : BackendServer) (sid : Nat) :
    sid ∈ (registerSession srv sid).sessions := by
  by_cases h : sid ∈ srv.sessions <;> simp [registerSession, h]

/-- Members of an updated pool come from members of the pool, updated
when their id matches. -/
theorem mem_updateServer {servers : List BackendServer} {i : Nat}
    {f : BackendServer → BackendServer} {srv : BackendServer}
    (h : srv ∈ updateServer servers i f) :
    ∃ x ∈ servers, srv = if x.id = i then f x else x := by
  rcases List.mem_map.mp h with ⟨x, hx, heq⟩
  exact ⟨x, hx, heq.symm⟩

/-- Unrolling the `Stop` loop: every client is closed in pool order and
exactly the failing closes contribute an error. -/
theorem stop_foldl (closeResult : Nat → Option Err) (pool : List BackendServer) :
    ∀ acc : StopOutcome,
      pool.foldl (stopStep closeResult) acc =
        ⟨acc.attempted ++ pool.map (fun s => s.client),
         acc.errors ++ failedCloses closeResult pool⟩ := by
  induction pool with
  | nil => intro acc; simp [failedCloses]
  | cons hd t ih =>
      intro acc
      rw [List.foldl_cons, ih]
      cases hc : closeResult hd.client <;>
        simp [stopStep, failedCloses, hc, List.filterMap_cons]

/-- The failing closes are exactly the pool members whose close fails. -/
theorem failedCloses_length (closeResult : Nat → Option Err) (pool : List BackendServer) :
    (failedCloses closeResult pool).length =
      (pool.filter (fun srv => (closeResult srv.client).isSome)).length := by
  induction pool with
  | nil => simp [failedCloses]
  | cons hd t ih =>
      cases hc : closeResult hd.client <;>
        simp [failedCloses, List.filterMap_cons, hc, List.filter_cons] <;>
        simpa [failedCloses] using ih

/-- C8: `Stop()` attempts to close the client of every backend in the pool
(it does not stop at the first failure), collects one formatted error per
failing close, and `NilOrError` turns the collection into nil exactly when
no close failed. -/
theorem Stop_aggregates (closeResult : Nat → Option Err) (pool : List BackendServer) :
    (Stop closeResult pool).attempted = pool.map (fun s => s.client) ∧
    (Stop closeResult pool).errors = failedCloses closeResult pool ∧
    (Stop closeResult pool).errors.length =
      (pool.filter (fun srv => (closeResult srv.client).isSome)).length ∧
    (NilOrError (Stop closeResult pool).errors = none ↔
      (pool.filter (fun srv => (closeResult srv.client).isSome)).length = 0) := by
  have h := stop_foldl closeResult pool ⟨[], []⟩
  have ha : (Stop closeResult pool).attempted = pool.map (fun s => s.client) := by
    rw [Stop, h]; simp
  have he : (Stop closeResult pool).errors = failedCloses closeResult pool := by
    rw [Stop, h]; simp
  refine ⟨ha, he, ?_, ?_⟩
  · rw [he, failedCloses_length]
  · rw [he, NilOrError]
    constructor
    · intro hnone
      by_cases hmt : failedCloses closeResult pool = []
      · rw [← failedCloses_length closeResult pool, hmt]; rfl
      · simp [hmt] at hnone
    · intro hlen
      have : (failedCloses closeResult pool).length = 0 := by
        rw [failedCloses_length]; exact hlen
      have hmt : failedCloses closeResult pool = [] := List.eq_nil_of_length_eq_zero this
      simp [hmt]

/-- C7: `Cleanup()` unregisters the session from its primary's session
set; with no recorded failover error it calls `StopRemote` exactly once
and returns its result; with a recorded failover error it returns that
error and calls neither `StopRemote` nor `BackgroundStopRemote`. -/
theorem Cleanup_spec (stopRemoteResult : Option Err) (servers : List BackendServer)
    (sess : Session) :
    (∀ srv ∈ (Cleanup stopRemoteResult servers sess).servers,
        srv.id = sess.primary → sess.id ∉ srv.sessions) ∧
    (sess.failoverError = none →
        (Cleanup stopRemoteResult servers sess).result = stopRemoteResult ∧
        (Cleanup stopRemoteResult servers sess).stopRemoteCalls = 1 ∧
        (Cleanup stopRemoteResult servers sess).backgroundStopRemoteCalls = 0) ∧
    (∀ e, sess.failoverError = some e →
        (Cleanup stopRemoteResult servers sess).result = some e ∧
        (Cleanup stopRemoteResult servers sess).stopRemoteCalls = 0 ∧
        (Cleanup stopRemoteResult servers sess).backgroundStopRemoteCalls = 0) := by
  refine ⟨?_, ?_, ?_⟩
  · intro srv hsrv hid
    have hmem : srv ∈ updateServer servers sess.primary
        (fun s => unregisterSession s sess.id) := by
      cases hf : sess.failoverError <;> simpa [Cleanup, hf] using hsrv
    rcases mem_updateServer hmem with ⟨x, _, heq⟩
    by_cases hx : x.id = sess.primary
    · rw [heq, if_pos hx]; exact not_mem_unregister x sess.id
    · rw [heq, if_neg hx] at hid; exact absurd hid hx
  · intro hf; simp [Cleanup, hf]
  · intro e hf; simp [Cleanup, hf]

/-- C9: once `Start(server)` has run, the panic branch of `assertStarted`
is unreachable: `AddBackendServer`, `serverStateChanged`,
`StopContainingSession` and `LogServerError` (the operations that guard
on or dereference `plugin.Server`) never panic on a started plugin; the
remaining operations (`NewSession`, `Stop`, `Cleanup`) contain no panic
site at all and are embedded as total functions. -/
theorem started_plugin_no_panic (p : Plugin) (srv : Nat) (a : AddSpec)
    (nextId : Nat) (key : CallbackKey) (client : String) (e : Err) :
    assertStartedPanics (StartPlugin p srv) = false ∧
    (AddBackendServerV0 (StartPlugin p srv).server (StartPlugin p srv).pool.servers
        nextId a).panicked = false ∧
    (serverStateChanged (StartPlugin p srv) key).panicked = false ∧
    (StopContainingSession (StartPlugin p srv) client).isSome = true ∧
    (LogServerError (StartPlugin p srv) e).isSome = true := by
  refine ⟨rfl, ?_, ?_, rfl, rfl⟩
  · rcases a with ⟨addr, res, md, nc, ss⟩
    cases res <;> cases md <;> cases nc <;> cases ss <;>
      simp [AddBackendServerV0, StartPlugin]
  · cases key <;> simp [serverStateChanged, StartPlugin]

/-- C10: a state-change callback whose opaque key is not a
`*BackendServer` only logs a conversion error on a started plugin: the
pool state (servers, session sets and sessions) is returned unchanged,
no failover is initiated, and no panic occurs. -/
theorem stateChanged_foreign_key (p : Plugin) (srv : Nat) (d : String)
    (hstarted : p.server = some srv) :
    serverStateChanged p (CallbackKey.other d) =
      ⟨p.pool,
       ["Could not handle server fault: Failed to convert " ++ d ++ " to *BackendServer"],
       [], false⟩ := by
  simp [serverStateChanged, hstarted]

/-- C10 witness: the concrete started plugin, handed a foreign key. -/
theorem stateChanged_foreign_key_holds :
    serverStateChanged pluginDown (CallbackKey.other "nil") =
      ⟨stDown,
       ["Could not handle server fault: Failed to convert nil to *BackendServer"],
       [], false⟩ :=
  stateChanged_foreign_key pluginDown 0 "nil" rfl

/-- C7 witness: cleanup of a session with a recorded failover error and of
one without, at concrete inputs. -/
theorem Cleanup_spec_holds :
    ((Cleanup (some "remote stop failed") [srvDown] sessPrimary5).result =
        some "remote stop failed" ∧
      (Cleanup (some "remote stop failed") [srvDown] sessPrimary5).stopRemoteCalls = 1) ∧
    (∀ srv ∈ (Cleanup (some "remote stop failed") [srvDown] sessPrimary5).servers,
        srv.id = sessPrimary5.primary → sessPrimary5.id ∉ srv.sessions) := by
  have h := Cleanup_spec (some "remote stop failed") [srvDown] sessPrimary5
  exact ⟨⟨(h.2.1 rfl).1, (h.2.1 rfl).2.1⟩, h.1⟩

/-- A failing V0 `AddBackendServer` call leaves the pool and the identity
counter unchanged, returns an error, and closes every partially created
detector and client. -/
theorem addV0_failure (server : Nat) (pool : List BackendServer) (n : Nat)
    (a : AddSpec) (ha : addSucceeds a = false) :
    (AddBackendServerV0 (some server) pool n a).pool = pool ∧
    (AddBackendServerV0 (some server) pool n a).nextId = n ∧
    (AddBackendServerV0 (some server) pool n a).result.isSome = true ∧
    (∀ d, createdDetector a = some d →
        d ∈ (AddBackendServerV0 (some server) pool n a).closedDetectors) ∧
    (∀ cl, createdClient a = some cl →
        cl ∈ (AddBackendServerV0 (some server) pool n a).closedClients) := by
  rcases a with ⟨addr, res, md, nc, ss⟩
  cases res <;> cases md <;> cases nc <;> cases ss <;>
    simp_all [AddBackendServerV0, createdDetector, createdClient, addSucceeds,
      Except.isOk, Except.toBool]

/-- A failing V1 `AddBackendServer` call leaves the pool and the identity
counter unchanged, returns an error, and closes nothing. -/
theorem addV1_failure (pool : List BackendServer) (n : Nat)
    (b : AddSpecV1) (hb : addSucceedsV1 b = false) :
    (AddBackendServerV1 pool n b).pool = pool ∧
    (AddBackendServerV1 pool n b).nextId = n ∧
    (AddBackendServerV1 pool n b).result.isSome = true ∧
    (AddBackendServerV1 pool n b).closedDetectors = [] ∧
    (AddBackendServerV1 pool n b).closedClients = [] := by
  rcases b with ⟨addr, r1, d1, lo, nc1, ss1⟩
  cases r1 <;> cases d1 <;> cases lo <;> cases nc1 <;> cases ss1 <;>
    simp_all [AddBackendServerV1, addSucceedsV1, Except.isOk, Except.toBool]

/-- C4 counterexample: in the UDP-dial revision, a call whose
`client.SetServer` fails returns the error with the freshly created
client (id 7) left unclosed. -/
theorem AddBackendServerV1_no_close_cex :
    addSucceedsV1 cexAddSpecV1 = false ∧
    createdClientV1 cexAddSpecV1 = some 7 ∧
    (AddBackendServerV1 [] 0 cexAddSpecV1).result = some "configure failed" ∧
    (AddBackendServerV1 [] 0 cexAddSpecV1).closedClients = [] ∧
    (AddBackendServerV1 [] 0 cexAddSpecV1).closedDetectors = [] :=
  ⟨rfl, rfl, rfl, rfl, rfl⟩

/-- C4 (amended): every failing `AddBackendServer` call returns an error
without mutating the pool, in both revisions; the detector-factory
revision closes every partially created detector and client before
returning, while the UDP-dial revision closes nothing on its failure
paths. -/
theorem AddBackendServer_failure_amended (server : Nat) (pool : List BackendServer)
    (n : Nat) (a : AddSpec) (b : AddSpecV1)
    (ha : addSucceeds a = false) (hb : addSucceedsV1 b = false) :
    (AddBackendServerV0 (some server) pool n a).pool = pool ∧
    (AddBackendServerV0 (some server) pool n a).result.isSome = true ∧
    (∀ d, createdDetector a = some d →
        d ∈ (AddBackendServerV0 (some server) pool n a).closedDetectors) ∧
    (∀ cl, createdClient a = some cl →
        cl ∈ (AddBackendServerV0 (some server) pool n a).closedClients) ∧
    (AddBackendServerV1 pool n b).pool = pool ∧
    (AddBackendServerV1 pool n b).result.isSome = true ∧
    (AddBackendServerV1 pool n b).closedDetectors = [] ∧
    (AddBackendServerV1 pool n b).closedClients = [] := by
  have h0 := addV0_failure server pool n a ha
  have h1 := addV1_failure pool n b hb
  exact ⟨h0.1, h0.2.2.1, h0.2.2.2.1, h0.2.2.2.2, h1.1, h1.2.2.1, h1.2.2.2.1, h1.2.2.2.2⟩

/-- C4 amended witness: a concrete V0 call failing in `SetServer` closes
detector 3 and client 7; the concrete failing V1 call closes nothing. -/
theorem AddBackendServer_failure_amended_holds :
    (AddBackendServerV0 (some 0) [] 0 wAddSpecV0).pool = [] ∧
    3 ∈ (AddBackendServerV0 (some 0) [] 0 wAddSpecV0).closedDetectors ∧
    7 ∈ (AddBackendServerV0 (some 0) [] 0 wAddSpecV0).closedClients ∧
    (AddBackendServerV1 [] 0 cexAddSpecV1).closedClients = [] := by
  have h := AddBackendServer_failure_amended 0 [] 0 wAddSpecV0 cexAddSpecV1 (by decide)
    (by decide)
  exact ⟨h.1, h.2.2.1 3 (by decide), h.2.2.2.1 7 (by decide), h.2.2.2.2.2.2.2⟩

/-- C2: admission fails cleanly.  The spec-modelled selection returns no
server exactly when no backend is UP; in that case `NewSession` returns
the "no server available" error with the pool state (pool, session sets
and sessions) unchanged; and when the handler's `NewSession` fails, an
error is returned, again with the state unchanged. -/
theorem NewSession_failure_paths (hr : Except Err Unit) (pn : String)
    (st : PoolState) (c : String) (sid : Nat) :
    ((pickServer st.servers).1 = none ↔ upServers st.servers = []) ∧
    (upServers st.servers = [] →
        NewSession hr pn st c sid =
          ⟨st, .error ("No " ++ pn ++ " server available to handle your request")⟩) ∧
    (∀ e srv backups, hr = .error e → pickServer st.servers = (some srv, backups) →
        NewSession hr pn st c sid =
          ⟨st, .error ("Failed to create " ++ pn ++ " session: " ++ e)⟩) := by
  have hperm : (List.insertionSort scoreLe (upServers st.servers)).Perm
      (upServers st.servers) := List.perm_insertionSort _ _
  refine ⟨?_, ?_, ?_⟩
  · cases hL : List.insertionSort scoreLe (upServers st.servers) with
    | nil =>
        rw [hL] at hperm
        simp [pickServer, hL, hperm.symm.eq_nil]
    | cons prim rest =>
        rw [hL] at hperm
        have hne : upServers st.servers ≠ [] := by
          intro hup
          rw [hup] at hperm
          exact absurd hperm.eq_nil (by simp)
        simp [pickServer, hL, hne]
  · intro hup
    have hL : List.insertionSort scoreLe (upServers st.servers) = [] := by
      rw [hup]; rfl
    simp [NewSession, pickServer, hL]
  · intro e srv backups he hpick
    rw [he]
    simp [NewSession, hpick]

/-- C2 witness: admission on a pool with no UP backend, and a handler
failure on a pool with UP backends. -/
theorem NewSession_failure_paths_holds :
    NewSession (.error "boom") "AMP" stNoUp "cl" 0 =
      ⟨stNoUp, .error "No AMP server available to handle your request"⟩ ∧
    NewSession (.error "boom") "AMP" stTwoUp "cl" 0 =
      ⟨stTwoUp, .error "Failed to create AMP session: boom"⟩ := by
  constructor
  · exact (NewSession_failure_paths (.error "boom") "AMP" stNoUp "cl" 0).2.1 (by decide)
  · exact (NewSession_failure_paths (.error "boom") "AMP" stTwoUp "cl" 0).2.2
      "boom" srvA [srvB] rfl (by decide)

/-- Registering a session does not change the backend's identity. -/
theorem registerSession_id (srv : BackendServer) (sid : Nat) :
    (registerSession srv sid).id = srv.id := by
  by_cases h : sid ∈ srv.sessions <;> simp [registerSession, h]

/-- Unregistering a session does not change the backend's identity. -/
theorem unregisterSession_id (srv : BackendServer) (sid : Nat) :
    (unregisterSession srv sid).id = srv.id := rfl

/-- C5: when a backend's breaker reports a transition to DOWN, the
callback initiates exactly one failover attempt per session whose
primary that backend is, and none for any other session — in particular
none for a session that only lists the backend among its backups.  The
hypotheses are the registration invariant: a session is in a backend's
session set exactly when that backend is its primary, session sets hold
no duplicates, and session ids are unique. -/
theorem serverDown_failover_exactly_primaries (p : Plugin) (i : Nat)
    (srv : BackendServer)
    (hfind : p.pool.servers.find? (fun s => s.id == i) = some srv)
    (hdown : srv.up = false)
    (hnodup : srv.sessions.Nodup)
    (hsid : (p.pool.sessions.map (fun s => s.id)).Nodup)
    (hiff : ∀ sid, sid ∈ srv.sessions ↔ sessionPrimary p.pool sid = some i) :
    (∀ sid, (serverStateChanged p (CallbackKey.backend i)).failovers.count sid =
        if sessionPrimary p.pool sid = some i then 1 else 0) ∧
    (∀ s ∈ p.pool.sessions, i ∈ s.backups → s.primary ≠ i →
        (serverStateChanged p (CallbackKey.backend i)).failovers.count s.id = 0) := by
  have hfo : (serverStateChanged p (CallbackKey.backend i)).failovers = srv.sessions := by
    simp [serverStateChanged, handleStateChanged, hfind, hdown]
  constructor
  · intro sid
    rw [hfo]
    by_cases hp : sessionPrimary p.pool sid = some i
    · rw [if_pos hp]
      exact List.count_eq_one_of_mem hnodup ((hiff sid).mpr hp)
    · rw [if_neg hp]
      exact List.count_eq_zero_of_not_mem (fun hmem => hp ((hiff sid).mp hmem))
  · intro s hs _ hpne
    rw [hfo]
    apply List.count_eq_zero_of_not_mem
    intro hmem
    have hsp := (hiff s.id).mp hmem
    have hfind2 : p.pool.sessions.find? (fun x => x.id == s.id) = some s :=
      find_by_key (fun x => x.id) p.pool.sessions s hs hsid
    rw [sessionPrimary, hfind2] at hsp
    exact hpne (Option.some_injective _ hsp)

/-- C5 witness: backend 2 of the concrete plugin goes DOWN; session 5
(primary on it) initiates exactly one failover, session 9 (backup on it)
initiates none. -/
theorem serverDown_failover_exactly_primaries_holds :
    (serverStateChanged pluginDown (CallbackKey.backend 2)).failovers.count 5 = 1 ∧
    (serverStateChanged pluginDown (CallbackKey.backend 2)).failovers.count 9 = 0 := by
  have hiff : ∀ sid, sid ∈ srvDown.sessions ↔
      sessionPrimary pluginDown.pool sid = some 2 := by
    intro sid
    constructor
    · intro h
      have h5 : sid = 5 := by simpa [srvDown] using h
      subst h5
      decide
    · intro h
      by_cases h5 : sid = 5
      · subst h5; decide
      · exfalso
        by_cases h9 : sid = 9
        · subst h9
          have : sessionPrimary pluginDown.pool 9 = some 0 := by decide
          rw [this] at h
          exact absurd (Option.some_injective _ h) (by decide)
        · have hb5 : ((5 : Nat) == sid) = false :=
            beq_eq_false_iff_ne.mpr (fun he => h5 he.symm)
          have hb9 : ((9 : Nat) == sid) = false :=
            beq_eq_false_iff_ne.mpr (fun he => h9 he.symm)
          simp [sessionPrimary, pluginDown, stDown, sessPrimary5, sessBackup9,
            List.find?, hb5, hb9] at h
  have h := serverDown_failover_exactly_primaries pluginDown 2 srvDown
    (by decide) (by decide) (by decide) (by decide) hiff
  constructor
  · have h5 := h.1 5
    have hp : sessionPrimary pluginDown.pool 5 = some 2 := by decide
    rwa [if_pos hp] at h5
  · exact h.2 sessBackup9 (by decide) (by decide) (by decide)

/-- C6: a successful failover attempt (the handler's `HandleServerFault`
returns a server) leaves the session with the returned server as its
primary, removes the session from the old primary's session set,
registers it on the new server's session set, and calls `RedirectStream`
exactly once, with the new server's address and port. -/
theorem failover_success_postconditions (st : PoolState) (sid : Nat)
    (sess : Session) (newSrv : BackendServer)
    (hsid : (st.sessions.map (fun s => s.id)).Nodup)
    (hmem : sess ∈ st.sessions) (hid : sess.id = sid)
    (hneq : newSrv.id ≠ sess.primary) :
    (∀ s ∈ (failoverSession (.ok newSrv) st sid).state.sessions,
        s.id = sid → s.primary = newSrv.id ∧ s.failoverError = sess.failoverError) ∧
    (∀ srv ∈ (failoverSession (.ok newSrv) st sid).state.servers,
        srv.id = sess.primary → sid ∉ srv.sessions) ∧
    (∀ srv ∈ (failoverSession (.ok newSrv) st sid).state.servers,
        srv.id = newSrv.id → sid ∈ srv.sessions) ∧
    (failoverSession (.ok newSrv) st sid).redirects = [(newSrv.host, newSrv.port)] ∧
    (failoverSession (.ok newSrv) st sid).result = none := by
  have hfind : st.sessions.find? (fun x => x.id == sid) = some sess := by
    have h := find_by_key (fun x => x.id) st.sessions sess hmem hsid
    simpa [hid] using h
  refine ⟨?_, ?_, ?_, ?_, ?_⟩
  · intro s hs hsidEq
    simp only [failoverSession, hfind] at hs
    rcases List.mem_map.mp hs with ⟨x, hx, heq⟩
    by_cases hxid : x.id = sid
    · rw [if_pos hxid] at heq
      have hxs : x = sess :=
        List.inj_on_of_nodup_map hsid hx hmem (by rw [hxid, hid])
      rw [← heq, hxs]
      exact ⟨rfl, rfl⟩
    · rw [if_neg hxid] at heq
      rw [← heq] at hsidEq
      exact absurd hsidEq hxid
  · intro srv hsrv hold
    simp only [failoverSession, hfind] at hsrv
    rcases mem_updateServer hsrv with ⟨x1, hx1, heq1⟩
    rcases mem_updateServer hx1 with ⟨x, _, heq2⟩
    by_cases hxp : x.id = sess.primary
    · rw [if_pos hxp] at heq2
      have hx1id : x1.id = sess.primary := by
        rw [heq2, unregisterSession_id, hxp]
      rw [if_neg (by rw [hx1id]; exact fun he => hneq he.symm)] at heq1
      rw [heq1, heq2]
      exact not_mem_unregister x sid
    · rw [if_neg hxp] at heq2
      subst heq2
      by_cases hxn : x1.id = newSrv.id
      · rw [if_pos hxn] at heq1
        rw [heq1] at hold
        rw [registerSession_id] at hold
        exact absurd (hxn ▸ hold) hneq
      · rw [if_neg hxn] at heq1
        rw [heq1] at hold
        exact absurd hold hxp
  · intro srv hsrv hnew
    simp only [failoverSession, hfind] at hsrv
    rcases mem_updateServer hsrv with ⟨x1, _, heq1⟩
    by_cases hxn : x1.id = newSrv.id
    · rw [if_pos hxn] at heq1
      rw [heq1]
      exact mem_register x1 sid
    · rw [if_neg hxn] at heq1
      rw [heq1] at hnew
      exact absurd hnew hxn
  · simp [failoverSession, hfind]
  · simp [failoverSession, hfind]

/-- C6 witness: session 5 of the concrete state fails over to `srvA`; the
redirect goes to srvA's address and port, the session leaves the session
set of the old primary (backend 2) and joins srvA's. -/
theorem failover_success_postconditions_holds :
    (∀ srv ∈ (failoverSession (.ok srvA) stDown 5).state.servers,
        srv.id = sessPrimary5.primary → (5 : Nat) ∉ srv.sessions) ∧
    (∀ srv ∈ (failoverSession (.ok srvA) stDown 5).state.servers,
        srv.id = srvA.id → (5 : Nat) ∈ srv.sessions) ∧
    (failoverSession (.ok srvA) stDown 5).redirects = [("10.0.0.1", 7777)] := by
  have h := failover_success_postconditions stDown 5 sessPrimary5 srvA
    (by decide) (by decide) rfl (by decide)
  exact ⟨h.2.1, h.2.2.1, h.2.2.2.1⟩

/-- C1: with at least one UP backend and a succeeding handler,
`NewSession` returns the fresh session; its primary is an UP backend of
minimal load score (the head of the stable sort of the UP servers, so the
first-registered among minimal-score ties), and its backups are the next
`num_backup_servers` UP backends of the sort — fewer if fewer are UP —
in ascending score order. -/
theorem NewSession_least_loaded (pn : String) (st : PoolState) (c : String)
    (sid : Nat) (hup : upServers st.servers ≠ []) :
    ∃ prim rest,
      List.insertionSort scoreLe (upServers st.servers) = prim :: rest ∧
      (NewSession (.ok ()) pn st c sid).result = .ok sid ∧
      (NewSession (.ok ()) pn st c sid).state.sessions.getLast? = some
        { id := sid, client := c, primary := prim.id,
          backups := (rest.take num_backup_servers).map (fun b => b.id),
          failoverError := none } ∧
      prim ∈ upServers st.servers ∧
      (∀ u ∈ upServers st.servers, loadScore10 prim ≤ loadScore10 u) ∧
      (∀ b ∈ rest.take num_backup_servers, b ∈ upServers st.servers) ∧
      List.Sorted scoreLe (prim :: rest.take num_backup_servers) := by
  have hperm : (List.insertionSort scoreLe (upServers st.servers)).Perm
      (upServers st.servers) := List.perm_insertionSort _ _
  have hsorted : List.Sorted scoreLe
      (List.insertionSort scoreLe (upServers st.servers)) :=
    List.sorted_insertionSort _ _
  cases hL : List.insertionSort scoreLe (upServers st.servers) with
  | nil =>
      rw [hL] at hperm
      exact absurd hperm.symm.eq_nil hup
  | cons prim rest =>
      rw [hL] at hperm hsorted
      have hpick : pickServer st.servers = (some prim, rest.take num_backup_servers) := by
        simp [pickServer, hL]
      refine ⟨prim, rest, rfl, ?_, ?_, ?_, ?_, ?_, ?_⟩
      · simp [NewSession, hpick]
      · simp only [NewSession, hpick]
        exact List.getLast?_concat _
      · exact hperm.mem_iff.mp (List.mem_cons_self prim rest)
      · intro u hu
        rcases List.mem_cons.mp (hperm.mem_iff.mpr hu) with h | h
        · rw [h]
        · exact List.rel_of_sorted_cons hsorted u h
      · intro b hb
        exact hperm.mem_iff.mp
          (List.mem_cons_of_mem prim (List.take_subset num_backup_servers rest hb))
      · exact hsorted.sublist
          (List.Sublist.cons₂ prim (List.take_sublist num_backup_servers rest))

/-- C1 witness: admission on the concrete two-backend pool (scores 0 and
10 in tenths) returns the session with the less-loaded backend as
primary and the other as single backup. -/
theorem NewSession_least_loaded_holds :
    (NewSession (.ok ()) "AMP" stTwoUp "cl" 0).result = .ok 0 ∧
    (NewSession (.ok ()) "AMP" stTwoUp "cl" 0).state.sessions.getLast? = some
      { id := 0, client := "cl", primary := srvA.id, backups := [srvB.id],
        failoverError := none } := by
  obtain ⟨prim, rest, hL, hres, hgl, _⟩ :=
    NewSession_least_loaded "AMP" stTwoUp "cl" 0 (by decide)
  have hps : prim :: rest = [srvA, srvB] := by rw [← hL]; decide
  injection hps with h1 h2
  subst h1
  subst h2
  exact ⟨hres, hgl⟩

/-- Appending a zero-score server to an all-zero-score pool leaves the
re-sort a no-op (the pool is already sorted and the sort is stable). -/
theorem sortPool_append_zero (pool : List BackendServer) (srv : BackendServer)
    (hscore : ∀ s ∈ pool, loadScore10 s = 0) (hsrv : loadScore10 srv = 0) :
    sortPool (pool ++ [srv]) = pool ++ [srv] := by
  apply sortPool_eq_of_all_zero
  intro s hs
  rcases List.mem_append.mp hs with h | h
  · exact hscore s h
  · rw [List.mem_singleton.mp h]
    exact hsrv

/-- Unrolling a sequence of `AddBackendServer` calls over a pool of
zero-score servers: failing calls leave the pool alone and the pool grows
by exactly the successfully added servers, in call order. -/
theorem runAdds_go (specs : List AddSpec) :
    ∀ (pool : List BackendServer) (n : Nat),
      (∀ s ∈ pool, loadScore10 s = 0) →
      (specs.foldl addStep (pool, n)).1 = pool ++ expectedServers specs n := by
  induction specs with
  | nil => intro pool n _; simp [expectedServers]
  | cons a rest ih =>
      intro pool n hscore
      rw [List.foldl_cons]
      rcases a with ⟨addr, res, md, nc, ss⟩
      by_cases hok : addSucceeds ⟨addr, res, md, nc, ss⟩ = true
      · rcases res with e | sa
        · simp [addSucceeds, Except.isOk, Except.toBool] at hok
        rcases md with e | d
        · simp [addSucceeds, Except.isOk, Except.toBool] at hok
        rcases nc with e | cl
        · simp [addSucceeds, Except.isOk, Except.toBool] at hok
        rcases ss with _ | e
        · have hsrv : loadScore10 (mkServer sa cl n) = 0 := rfl
          have hstep : addStep (pool, n) ⟨addr, .ok sa, .ok d, .ok cl, none⟩ =
              (pool ++ [mkServer sa cl n], n + 1) := by
            simp only [addStep, AddBackendServerV0]
            rw [sortPool_append_zero pool _ hscore hsrv]
          rw [hstep]
          have hscore2 : ∀ s ∈ pool ++ [mkServer sa cl n], loadScore10 s = 0 := by
            intro s hs
            rcases List.mem_append.mp hs with h | h
            · exact hscore s h
            · rw [List.mem_singleton.mp h]
              exact hsrv
          rw [ih _ (n + 1) hscore2]
          simp [expectedServers, List.append_assoc]
        · simp [addSucceeds, Except.isOk, Except.toBool] at hok
      · have hfail := addV0_failure 0 pool n ⟨addr, res, md, nc, ss⟩
          (Bool.not_eq_true _ ▸ hok)
        have hstep : addStep (pool, n) ⟨addr, res, md, nc, ss⟩ = (pool, n) := by
          simp only [addStep]
          rw [hfail.1, hfail.2.1]
        rw [hstep, ih pool n hscore]
        have hexp : expectedServers (⟨addr, res, md, nc, ss⟩ :: rest) n =
            expectedServers rest n := by
          rcases res with e | sa <;> rcases md with e1 | d <;>
            rcases nc with e2 | cl <;> rcases ss with _ | e3 <;>
            simp_all [expectedServers, addSucceeds, Except.isOk, Except.toBool]
        rw [hexp]

/-- The servers a sequence of successful adds is expected to produce all
have load score zero and identities counting up from the threaded
counter, strictly increasing along the list. -/
theorem expectedServers_score_id (specs : List AddSpec) :
    ∀ n : Nat,
      (∀ s ∈ expectedServers specs n, loadScore10 s = 0 ∧ n ≤ s.id) ∧
      List.Pairwise (fun x y => x.id < y.id) (expectedServers specs n) := by
  induction specs with
  | nil => intro n; simp [expectedServers]
  | cons a rest ih =>
      intro n
      rcases a with ⟨addr, res, md, nc, ss⟩
      rcases res with e | sa <;> rcases md with e1 | d <;>
        rcases nc with e2 | cl <;> rcases ss with _ | e3 <;>
        simp only [expectedServers] <;>
        try exact ih n
      constructor
      · intro s hs
        rcases List.mem_cons.mp hs with h | h
        · rw [h]; exact ⟨rfl, Nat.le_refl n⟩
        · have := ((ih (n + 1)).1 s h).2
          exact ⟨((ih (n + 1)).1 s h).1, Nat.le_of_succ_le this⟩
      · apply List.Pairwise.cons
        · intro s hs
          have := ((ih (n + 1)).1 s hs).2
          exact Nat.lt_of_succ_le this
        · exact (ih (n + 1)).2

/-- C3: after any sequence of `AddBackendServer` calls on a fresh plugin,
the pool holds exactly the successfully added servers (each exactly once:
their identities are distinct), and is sorted ascending by current load
score with ties broken by registration order (here all scores are zero,
so the pool is exactly in registration order and every adjacent pair is
ordered by the tie-break). -/
theorem AddBackendServer_pool_invariant (specs : List AddSpec) :
    (runAdds specs).1 = expectedServers specs 0 ∧
    List.Pairwise (fun x y => loadScore10 x < loadScore10 y ∨
        (loadScore10 x = loadScore10 y ∧ x.id < y.id)) (runAdds specs).1 ∧
    ((runAdds specs).1.map (fun s => s.id)).Nodup := by
  have heq : (runAdds specs).1 = expectedServers specs 0 := by
    have h := runAdds_go specs [] 0 (by intro s hs; exact absurd hs (List.not_mem_nil s))
    simpa [runAdds] using h
  have hprops := expectedServers_score_id specs 0
  refine ⟨heq, ?_, ?_⟩
  · rw [heq]
    refine List.Pairwise.imp_of_mem ?_ hprops.2
    intro x y hx hy hlt
    right
    rw [(hprops.1 x hx).1, (hprops.1 y hy).1]
    exact ⟨rfl, hlt⟩
  · rw [heq]
    have hne : List.Pairwise (fun x y => x.id ≠ y.id) (expectedServers specs 0) :=
      hprops.2.imp (fun h => Nat.ne_of_lt h)
    exact List.pairwise_map.mpr hne

end Balancer
